import Mathlib

set_option maxRecDepth 4000
set_option maxHeartbeats 1000000

/-!
Verification of the metrics-reporting behavior of the TrustLens tutorial
notebooks (the Opik notebook and the DeepEval notebook).  The definitions
below are shallow embeddings of the notebook code: the score-collector
loops that build the metric_results dict, the payload and headers of the
POST to the metrics endpoint, and the fetch_report_result GET helper.
HTTP transport and the external libraries (requests, opik, deepeval) are
modelled abstractly: an HTTP response is a status code together with the
result of parsing its body as JSON (`none` when the body is not valid
JSON, in which case `response.json()` raises) and its raw text; a metric
object carries its class name and a scoring function.
-/

/-- Association-list model of a Python dict with string keys: assignment
`d[k] = v` updates the value in place when the key is already present
(keeping its position) and appends the binding at the end otherwise,
exactly as CPython dicts behave. -/
def dinsert {α : Type} (k : String) (v : α) : List (String × α) → List (String × α)
  | [] => [(k, v)]
  | (k0, v0) :: rest => if k0 = k then (k0, v) :: rest else (k0, v0) :: dinsert k v rest

/-- Python dict lookup `d.get(k)`: the value of the first (unique) binding
with key `k`, if any. -/
def dlookup {α : Type} (k : String) : List (String × α) → Option α
  | [] => none
  | (k0, v0) :: rest => if k0 = k then some v0 else dlookup k rest

/-- The keys of the dict, in insertion order, as in `list(d.keys())`. -/
def dkeys {α : Type} (d : List (String × α)) : List String :=
  d.map Prod.fst

/-- A MetricResult mapping: metric name to numeric score.  Scores are
modelled as rationals; the notebooks only ever carry them opaquely from
the evaluation libraries into the payload. -/
abbrev MetricResult := List (String × Rat)

/-- Model of a deepeval metric object as the DeepEval notebook loop uses
it: `m.measure(tc)` computes the score that is then read off `m.score`,
and the recorded key is the string `m.__class__.__name__`.  The test-case
type is abstract since the loop never inspects it. -/
structure DeepEvalMetric (α : Type) where
  className : String
  measure : α → Rat

/-- The DeepEval collector loop, with an explicit accumulating dict:
`for m in metrics: m.measure(tc); metric_results[m.__class__.__name__] = m.score`.
The second component is the ordered log of the class names of the metrics
whose measure method was invoked. -/
def deepeval_go {α : Type} (tc : α) : List (DeepEvalMetric α) → List (String × Rat) → List (String × Rat) × List String
  | [], d => (d, [])
  | m :: rest, d =>
      let r := deepeval_go tc rest (dinsert m.className (m.measure tc) d)
      (r.1, m.className :: r.2)

/-- The `metric_results` dict built by the DeepEval notebook loop, starting
from the empty dict, together with the invocation log. -/
def deepeval_metric_results {α : Type} (ms : List (DeepEvalMetric α)) (tc : α) : List (String × Rat) × List String :=
  deepeval_go tc ms []

/-- Model of an opik metric object from the Opik notebook: the loop
dispatches on the runtime class (`isinstance`), so the class is explicit.
`Equals(case_sensitive=...)` carries its flag; every class carries its
external scoring function `(output, reference) => result.value`. -/
inductive OpikMetric where
  | equals (caseSensitive : Bool) (score : String → String → Rat)
  | moderation (score : String → String → Rat)
  | geval (score : String → String → Rat)

/-- The string `m.__class__.__name__` of an opik metric object. -/
def opikClassName : OpikMetric → String
  | .equals _ _ => "Equals"
  | .moderation _ => "Moderation"
  | .geval _ => "GEval"

/-- The class name recorded when the Opik loop scores a metric: Equals and
Moderation are scored; any other metric falls into the else branch
(`continue`) and is skipped. -/
def opikScoredName : OpikMetric → Option String
  | .equals _ _ => some "Equals"
  | .moderation _ => some "Moderation"
  | .geval _ => none

/-- The dict entry the Opik loop writes for a metric it scores: the class
name together with `result.value` for the given output and reference;
nothing for a skipped metric. -/
def opikScoredEntry (output reference : String) : OpikMetric → Option (String × Rat)
  | .equals _ f => some ("Equals", f output reference)
  | .moderation f => some ("Moderation", f output reference)
  | .geval _ => none

/-- The Opik collector loop from the Opik notebook, with an explicit
accumulating dict:
`for m in metrics: if isinstance(m, Equals): result = m.score(...) elif isinstance(m, Moderation): result = m.score(...) else: continue; metric_results[m.__class__.__name__] = result.value`.
The second component is the ordered log of the class names of the metrics
whose score method was invoked. -/
def opik_go (output reference : String) : List OpikMetric → List (String × Rat) → List (String × Rat) × List String
  | [], d => (d, [])
  | .equals _ f :: rest, d =>
      let r := opik_go output reference rest (dinsert "Equals" (f output reference) d)
      (r.1, "Equals" :: r.2)
  | .moderation f :: rest, d =>
      let r := opik_go output reference rest (dinsert "Moderation" (f output reference) d)
      (r.1, "Moderation" :: r.2)
  | .geval _ :: rest, d => opik_go output reference rest d

/-- The `metric_results` dict built by the Opik notebook loop, starting
from the empty dict, together with the invocation log. -/
def opik_metric_results (ms : List OpikMetric) (output reference : String) : List (String × Rat) × List String :=
  opik_go output reference ms []

/-- The `metric_metadata` object of the payload: the seven string fields
exactly as the notebook dicts spell them. -/
structure MetricMetadata where
  application_name : String
  version : String
  resource_name : String
  resource_id : String
  url : String
  provider : String
  use_case : String
deriving DecidableEq

/-- The `metric_data` object of the payload.  In the source it is a dict
with three keys: the literals "resource_id" and "resource_name", and a
third key that is the literal provider string ("deepeval" in the DeepEval
notebook, "opik" in the Opik notebook) mapped to the metric_results dict.
The field `providerKey` holds that third key. -/
structure MetricData where
  resource_id : String
  resource_name : String
  providerKey : String
  scores : MetricResult
deriving DecidableEq

/-- The JSON document POSTed to the metrics endpoint. -/
structure MetricsPayload where
  metric_metadata : MetricMetadata
  metric_data : MetricData
deriving DecidableEq

/-- The payload dict built inside post_metrics_to_TRACE_Metric_API in the
DeepEval notebook.  Every value other than the metric_results dict is a
literal written in the source. -/
def post_metrics_payload (metric_results : MetricResult) : MetricsPayload :=
  ⟨⟨"chat-application", "1.0.0", "chat-completion", "R-756",
    "https://api.example.com/chat", "deepeval", "transportation"⟩,
   ⟨"res_123456", "chat-completion", "deepeval", metric_results⟩⟩

/-- The payload dict built by the submit cell of the Opik notebook.  Same
literals, except the provider is "opik" and the third metric_data key is
the literal "opik". -/
def opik_payload (metric_results : MetricResult) : MetricsPayload :=
  ⟨⟨"chat-application", "1.0.0", "chat-completion", "R-756",
    "https://api.example.com/chat", "opik", "transportation"⟩,
   ⟨"res_123456", "chat-completion", "opik", metric_results⟩⟩

/-- An outgoing POST request: url, headers and JSON body. -/
structure HttpRequest where
  url : String
  headers : List (String × String)
  body : MetricsPayload
deriving DecidableEq

/-- An outgoing GET request: url and headers, no body. -/
structure GetRequest where
  url : String
  headers : List (String × String)
deriving DecidableEq

/-- An incoming HTTP response, as the notebooks observe it through the
requests library: the status code, the result of parsing the body as JSON
(`none` when the body is not valid JSON, in which case `response.json()`
raises), and the raw body text.  The parsed-JSON type is abstract because
the notebooks never inspect it. -/
structure HttpResponse (α : Type) where
  status : Nat
  jsonBody : Option α
  text : String

/-- One line printed by the submit function of the DeepEval notebook. -/
inductive PrintLine (α : Type) where
  | statusLine (code : Nat)
  | jsonLine (body : α)
  | textLine (t : String)
deriving DecidableEq

/-- The POST request built by post_metrics_to_TRACE_Metric_API in the
DeepEval notebook: url = BASE_URL + "/cv/v1/metrics", the three headers,
and the payload. -/
def post_metrics_request (metric_results : MetricResult) (auth_token user_id : String) : HttpRequest :=
  ⟨"https://api.cognitiveview.com" ++ "/cv/v1/metrics",
   [("Authorization", auth_token),
    ("Content-Type", "application/json"),
    ("X-User-Id", user_id)],
   post_metrics_payload metric_results⟩

/-- The response handling of post_metrics_to_TRACE_Metric_API: it prints
the status code, then tries `response.json()`; on success it prints and
returns the parsed body, otherwise it prints `response.text` and returns
None.  The result is the list of printed lines and the return value. -/
def post_metrics_handle {α : Type} (resp : HttpResponse α) : List (PrintLine α) × Option α :=
  match resp.jsonBody with
  | some j => ([.statusLine resp.status, .jsonLine j], some j)
  | none => ([.statusLine resp.status, .textLine resp.text], none)

/-- The whole of post_metrics_to_TRACE_Metric_API in the DeepEval
notebook, as a function of the arguments and of the response the remote
gives to the request: the request it sends, the lines it prints and the
value it returns. -/
def post_metrics_to_TRACE_Metric_API {α : Type} (metric_results : MetricResult)
    (auth_token user_id : String) (resp : HttpResponse α) :
    HttpRequest × (List (PrintLine α) × Option α) :=
  (post_metrics_request metric_results auth_token user_id, post_metrics_handle resp)

/-- The POST request assembled by the submit cell of the Opik notebook:
same url and header names; the X-User-Id value is the literal
"C473421_T181751" written in the source, the Authorization value is the
module-level AUTH_TOKEN variable, passed here as the argument. -/
def opik_submit_request (metric_results : MetricResult) (auth_token : String) : HttpRequest :=
  ⟨"https://api.cognitiveview.com" ++ "/cv/v1/metrics",
   [("Authorization", auth_token),
    ("Content-Type", "application/json"),
    ("X-User-Id", "C473421_T181751")],
   opik_payload metric_results⟩

/-- The GET request built by fetch_report_result (identical in both
notebooks): url = base_url + "/cv/v1/metrics/" + report_id and the three
headers. -/
def fetch_report_request (report_id auth_token user_id : String) : GetRequest :=
  ⟨"https://api.cognitiveview.com" ++ ("/cv/v1/metrics/" ++ report_id),
   [("Authorization", auth_token),
    ("Content-Type", "application/json"),
    ("X-User-Id", user_id)]⟩

/-- fetch_report_result (identical in both notebooks), as a function of
its arguments and of the response: the request it sends, and its outcome.
On status 200 it returns `response.json()`, which raises when the body is
not valid JSON (modelled as `Except.error`); on any other status it
returns None. -/
def fetch_report_result {α : Type} (report_id auth_token user_id : String)
    (resp : HttpResponse α) : GetRequest × Except String (Option α) :=
  (fetch_report_request report_id auth_token user_id,
   if resp.status = 200 then
     match resp.jsonBody with
     | some j => .ok (some j)
     | none => .error "JSONDecodeError"
   else .ok none)

/-- JSON tokens: the lexical form of the serialized payload.  Working at
the token level models the json encoding used by `requests.post(json=...)`
while leaving the purely lexical layer (string escaping, digit strings) to
the json library, which round-trips both exactly. -/
inductive JTok where
  | lbrace
  | rbrace
  | colon
  | comma
  | jstr (s : String)
  | jnum (q : Rat)
deriving DecidableEq

/-- Token serialization of the metric_results object, without its opening
brace but with its closing brace: comma-separated `"name": score` pairs. -/
def serMRFields : List (String × Rat) → List JTok
  | [] => [.rbrace]
  | [(k, v)] => [.jstr k, .colon, .jnum v, .rbrace]
  | (k, v) :: rest => .jstr k :: .colon :: .jnum v :: .comma :: serMRFields rest

/-- Token serialization of a flat string-valued object, without its
opening brace but with its closing brace: comma-separated
`"key": "value"` pairs.  Used for the metric_metadata object. -/
def serStrObjFields : List (String × String) → List JTok
  | [] => [.rbrace]
  | [(k, v)] => [.jstr k, .colon, .jstr v, .rbrace]
  | (k, v) :: rest => .jstr k :: .colon :: .jstr v :: .comma :: serStrObjFields rest

/-- The metric_metadata object as the ordered key-value list the notebook
dict is written as. -/
def metaFields (m : MetricMetadata) : List (String × String) :=
  [("application_name", m.application_name),
   ("version", m.version),
   ("resource_name", m.resource_name),
   ("resource_id", m.resource_id),
   ("url", m.url),
   ("provider", m.provider),
   ("use_case", m.use_case)]

/-- Rebuilding a metric_metadata record from a parsed key-value list:
succeeds exactly on the seven expected keys in the expected order. -/
def metaOfFields : List (String × String) → Option MetricMetadata
  | [("application_name", a), ("version", vr), ("resource_name", rn),
     ("resource_id", rid), ("url", u), ("provider", p), ("use_case", uc)] =>
      some ⟨a, vr, rn, rid, u, p, uc⟩
  | _ => none

/-- Token serialization of the whole payload document, in the key order
the notebook dicts are written in. -/
def serializePayloadTokens (P : MetricsPayload) : List JTok :=
  .lbrace :: .jstr "metric_metadata" :: .colon :: .lbrace
    :: (serStrObjFields (metaFields P.metric_metadata)
        ++ (.comma
    :: .jstr "metric_data" :: .colon :: .lbrace
    :: .jstr "resource_id" :: .colon :: .jstr P.metric_data.resource_id :: .comma
    :: .jstr "resource_name" :: .colon :: .jstr P.metric_data.resource_name :: .comma
    :: .jstr P.metric_data.providerKey :: .colon :: .lbrace
    :: (serMRFields P.metric_data.scores ++ [.rbrace, .rbrace])))

/-- Token parser for a metric_results object (after its opening brace):
reads `"name": score` pairs up to the closing brace and returns them with
the remaining tokens. -/
def parseMRFields : List JTok → Option (List (String × Rat) × List JTok)
  | .rbrace :: rest => some ([], rest)
  | .jstr k :: .colon :: .jnum v :: .rbrace :: rest => some ([(k, v)], rest)
  | .jstr k :: .colon :: .jnum v :: .comma :: rest =>
      match parseMRFields rest with
      | some (fs, r) => some ((k, v) :: fs, r)
      | none => none
  | _ => none

/-- Token parser for a flat string-valued object (after its opening
brace): reads `"key": "value"` pairs up to the closing brace. -/
def parseStrObjFields : List JTok → Option (List (String × String) × List JTok)
  | .rbrace :: rest => some ([], rest)
  | .jstr k :: .colon :: .jstr v :: .rbrace :: rest => some ([(k, v)], rest)
  | .jstr k :: .colon :: .jstr v :: .comma :: rest =>
      match parseStrObjFields rest with
      | some (fs, r) => some ((k, v) :: fs, r)
      | none => none
  | _ => none

/-- Parser for the tail of the metric_data object: the provider key and
its score object, then the two closing braces of metric_data and of the
document. -/
def parseMDProvider (meta : MetricMetadata) (rid2 rn2 : String) : List JTok → Option MetricsPayload
  | .jstr pk :: .colon :: .lbrace :: rest =>
      match parseMRFields rest with
      | some (sc, [.rbrace, .rbrace]) => some ⟨meta, ⟨rid2, rn2, pk, sc⟩⟩
      | _ => none
  | _ => none

/-- Parser for the resource_name field of the metric_data object. -/
def parseMDResName (meta : MetricMetadata) (rid2 : String) : List JTok → Option MetricsPayload
  | .jstr "resource_name" :: .colon :: .jstr rn2 :: .comma :: rest =>
      parseMDProvider meta rid2 rn2 rest
  | _ => none

/-- Parser for the resource_id field of the metric_data object. -/
def parseMDResId (meta : MetricMetadata) : List JTok → Option MetricsPayload
  | .jstr "resource_id" :: .colon :: .jstr rid2 :: .comma :: rest =>
      parseMDResName meta rid2 rest
  | _ => none

/-- Parser for the metric_data object, after the closing brace of the
metric_metadata object. -/
def parseMetricData (meta : MetricMetadata) : List JTok → Option MetricsPayload
  | .comma :: .jstr "metric_data" :: .colon :: .lbrace :: rest =>
      parseMDResId meta rest
  | _ => none

/-- Token parser for the whole payload document, inverse of
serializePayloadTokens on its image: checks the brace structure and the
fixed key names, and reads back the metadata, the metric_data strings,
the provider key and the score fields. -/
def parsePayloadTokens : List JTok → Option MetricsPayload
  | .lbrace :: .jstr "metric_metadata" :: .colon :: .lbrace :: rest =>
      match parseStrObjFields rest with
      | some (mf, rest1) =>
          match metaOfFields mf with
          | some meta => parseMetricData meta rest1
          | none => none
      | none => none
  | _ => none

/-- Looking up a provider key among the score entries of a metric_data
object: the scores stored under `p`, if `p` is the provider key. -/
def metric_data_lookup (p : String) (d : MetricData) : Option MetricResult :=
  if d.providerKey = p then some d.scores else none

/-- Lookup after a dict assignment: the assigned key reads back the new
value, every other key is unchanged. -/
theorem dlookup_dinsert {α : Type} (k k0 : String) (v : α) (d : List (String × α)) :
    dlookup k (dinsert k0 v d) = if k0 = k then some v else dlookup k d := by
  induction d with
  | nil => simp [dinsert, dlookup]
  | cons hd tl ih =>
      obtain ⟨k1, v1⟩ := hd
      by_cases h1 : k1 = k0
      · subst h1
        simp only [dinsert, if_pos rfl, dlookup]
        by_cases h2 : k1 = k <;> simp [h2]
      · simp only [dinsert, if_neg h1, dlookup, ih]
        by_cases h2 : k1 = k
        · subst h2
          have : ¬ k0 = k1 := fun h => h1 h.symm
          simp [this]
        · simp [h2]

/-- Lookup distributes over list append, preferring the left list. -/
theorem dlookup_append {α : Type} (k : String) (l1 l2 : List (String × α)) :
    dlookup k (l1 ++ l2) =
      match dlookup k l1 with
      | some v => some v
      | none => dlookup k l2 := by
  induction l1 with
  | nil => simp [dlookup]
  | cons hd tl ih =>
      obtain ⟨k1, v1⟩ := hd
      by_cases h1 : k1 = k <;> simp [dlookup, h1, ih]

/-- Key membership after a dict assignment. -/
theorem mem_dkeys_dinsert {α : Type} (a k : String) (v : α) (d : List (String × α)) :
    a ∈ dkeys (dinsert k v d) ↔ a = k ∨ a ∈ dkeys d := by
  induction d with
  | nil => simp [dinsert, dkeys]
  | cons hd tl ih =>
      obtain ⟨k1, v1⟩ := hd
      simp only [dinsert]
      by_cases h1 : k1 = k
      · rw [if_pos h1]
        subst h1
        simp only [dkeys, List.map_cons, List.mem_cons]
        tauto
      · rw [if_neg h1]
        simp only [dkeys, List.map_cons, List.mem_cons] at ih ⊢
        rw [ih]
        tauto

/-- A dict assignment preserves distinctness of the keys. -/
theorem nodup_dkeys_dinsert {α : Type} (k : String) (v : α) (d : List (String × α))
    (h : (dkeys d).Nodup) : (dkeys (dinsert k v d)).Nodup := by
  induction d with
  | nil => simp [dinsert, dkeys]
  | cons hd tl ih =>
      obtain ⟨k1, v1⟩ := hd
      simp only [dkeys, List.map_cons, List.nodup_cons] at h
      simp only [dinsert]
      by_cases h1 : k1 = k
      · rw [if_pos h1]
        simp only [dkeys, List.map_cons, List.nodup_cons]
        exact ⟨h.1, h.2⟩
      · rw [if_neg h1]
        simp only [dkeys, List.map_cons, List.nodup_cons]
        refine ⟨?_, ih h.2⟩
        intro hmem
        rcases (mem_dkeys_dinsert k1 k v tl).mp hmem with h2 | h2
        · exact h1 h2
        · exact h.1 h2

/-- The DeepEval loop invokes the measure method of every metric in the
list, once each, in order. -/
theorem deepeval_go_log {α : Type} (tc : α) (ms : List (DeepEvalMetric α))
    (d : List (String × Rat)) :
    (deepeval_go tc ms d).2 = ms.map DeepEvalMetric.className := by
  induction ms generalizing d with
  | nil => simp [deepeval_go]
  | cons m rest ih => simp [deepeval_go, ih]

/-- The keys present after the DeepEval loop: the class names of the
metrics, plus whatever was in the starting dict. -/
theorem mem_dkeys_deepeval_go {α : Type} (tc : α) (a : String)
    (ms : List (DeepEvalMetric α)) (d : List (String × Rat)) :
    a ∈ dkeys (deepeval_go tc ms d).1 ↔
      a ∈ ms.map DeepEvalMetric.className ∨ a ∈ dkeys d := by
  induction ms generalizing d with
  | nil => simp [deepeval_go]
  | cons m rest ih =>
      simp only [deepeval_go, List.map_cons, List.mem_cons]
      rw [ih, mem_dkeys_dinsert]
      tauto

/-- The DeepEval loop keeps the dict keys distinct. -/
theorem nodup_dkeys_deepeval_go {α : Type} (tc : α) (ms : List (DeepEvalMetric α))
    (d : List (String × Rat)) (h : (dkeys d).Nodup) :
    (dkeys (deepeval_go tc ms d).1).Nodup := by
  induction ms generalizing d with
  | nil => simpa [deepeval_go] using h
  | cons m rest ih => exact ih _ (nodup_dkeys_dinsert _ _ _ h)

/-- The Opik loop invokes the score method of exactly the Equals and
Moderation metrics, once each, in order; GEval metrics are skipped. -/
theorem opik_go_log (output reference : String) (ms : List OpikMetric)
    (d : List (String × Rat)) :
    (opik_go output reference ms d).2 = ms.filterMap opikScoredName := by
  induction ms generalizing d with
  | nil => simp [opik_go]
  | cons m rest ih =>
      cases m with
      | equals cs f => simp [opik_go, opikScoredName, List.filterMap_cons, ih]
      | moderation f => simp [opik_go, opikScoredName, List.filterMap_cons, ih]
      | geval f => simp [opik_go, opikScoredName, List.filterMap_cons, ih]

/-- The keys present after the Opik loop: the class names of the scored
metrics, plus whatever was in the starting dict. -/
theorem mem_dkeys_opik_go (output reference : String) (a : String)
    (ms : List OpikMetric) (d : List (String × Rat)) :
    a ∈ dkeys (opik_go output reference ms d).1 ↔
      a ∈ ms.filterMap opikScoredName ∨ a ∈ dkeys d := by
  induction ms generalizing d with
  | nil => simp [opik_go]
  | cons m rest ih =>
      cases m with
      | equals cs f =>
          simp only [opik_go, opikScoredName, List.filterMap_cons, List.mem_cons]
          rw [ih, mem_dkeys_dinsert]
          tauto
      | moderation f =>
          simp only [opik_go, opikScoredName, List.filterMap_cons, List.mem_cons]
          rw [ih, mem_dkeys_dinsert]
          tauto
      | geval f =>
          simp only [opik_go, opikScoredName, List.filterMap_cons]
          exact ih d

/-- The Opik loop keeps the dict keys distinct. -/
theorem nodup_dkeys_opik_go (output reference : String) (ms : List OpikMetric)
    (d : List (String × Rat)) (h : (dkeys d).Nodup) :
    (dkeys (opik_go output reference ms d).1).Nodup := by
  induction ms generalizing d with
  | nil => simpa [opik_go] using h
  | cons m rest ih =>
      cases m with
      | equals cs f => exact ih _ (nodup_dkeys_dinsert _ _ _ h)
      | moderation f => exact ih _ (nodup_dkeys_dinsert _ _ _ h)
      | geval f => exact ih _ h

/-- Looking up a key in the dict the DeepEval loop builds is the same as
looking it up in the reversed insertion sequence: the last metric with a
given class name wins. -/
theorem dlookup_deepeval_go {α : Type} (tc : α) (k : String)
    (ms : List (DeepEvalMetric α)) (d : List (String × Rat)) :
    dlookup k (deepeval_go tc ms d).1 =
      match dlookup k (ms.map (fun m => (m.className, m.measure tc))).reverse with
      | some w => some w
      | none => dlookup k d := by
  induction ms generalizing d with
  | nil => simp [deepeval_go, dlookup]
  | cons m rest ih =>
      simp only [deepeval_go, List.map_cons, List.reverse_cons]
      rw [ih, dlookup_append]
      cases hrest : dlookup k (rest.map (fun m => (m.className, m.measure tc))).reverse with
      | some w => simp
      | none =>
          simp only [dlookup, dlookup_dinsert]
          by_cases h2 : m.className = k <;> simp [h2]

/-- Looking up a key in the dict the Opik loop builds is the same as
looking it up in the reversed sequence of the entries it writes: the last
scored metric with a given class name wins. -/
theorem dlookup_opik_go (output reference k : String)
    (ms : List OpikMetric) (d : List (String × Rat)) :
    dlookup k (opik_go output reference ms d).1 =
      match dlookup k (ms.filterMap (opikScoredEntry output reference)).reverse with
      | some w => some w
      | none => dlookup k d := by
  induction ms generalizing d with
  | nil => simp [opik_go, dlookup]
  | cons m rest ih =>
      cases m with
      | equals cs f =>
          simp only [opik_go, opikScoredEntry, List.filterMap_cons, List.reverse_cons]
          rw [ih, dlookup_append]
          cases hrest :
              dlookup k (rest.filterMap (opikScoredEntry output reference)).reverse with
          | some w => simp
          | none =>
              simp only [dlookup, dlookup_dinsert]
              by_cases h2 : "Equals" = k <;> simp [h2]
      | moderation f =>
          simp only [opik_go, opikScoredEntry, List.filterMap_cons, List.reverse_cons]
          rw [ih, dlookup_append]
          cases hrest :
              dlookup k (rest.filterMap (opikScoredEntry output reference)).reverse with
          | some w => simp
          | none =>
              simp only [dlookup, dlookup_dinsert]
              by_cases h2 : "Moderation" = k <;> simp [h2]
      | geval f =>
          simp only [opik_go, opikScoredEntry, List.filterMap_cons]
          exact ih d

/-- Parsing the serialized score fields recovers them exactly, leaving the
remaining tokens untouched. -/
theorem parse_serMRFields (m : List (String × Rat)) (rest : List JTok) :
    parseMRFields (serMRFields m ++ rest) = some (m, rest) := by
  induction m with
  | nil => simp [serMRFields, parseMRFields]
  | cons hd tl ih =>
      obtain ⟨k, v⟩ := hd
      cases tl with
      | nil => simp [serMRFields, parseMRFields]
      | cons h2 t2 =>
          simp only [serMRFields, List.cons_append, parseMRFields, List.append_eq]
          rw [ih]

/-- Parsing the serialized string fields recovers them exactly, leaving
the remaining tokens untouched. -/
theorem parse_serStrObjFields (m : List (String × String)) (rest : List JTok) :
    parseStrObjFields (serStrObjFields m ++ rest) = some (m, rest) := by
  induction m with
  | nil => simp [serStrObjFields, parseStrObjFields]
  | cons hd tl ih =>
      obtain ⟨k, v⟩ := hd
      cases tl with
      | nil => simp [serStrObjFields, parseStrObjFields]
      | cons h2 t2 =>
          simp only [serStrObjFields, List.cons_append, parseStrObjFields, List.append_eq]
          rw [ih]

/-- Rebuilding metadata from its own field list gives the metadata back. -/
theorem metaOfFields_metaFields (m : MetricMetadata) :
    metaOfFields (metaFields m) = some m := by
  obtain ⟨a, vr, rn, rid, u, p, uc⟩ := m
  rfl

/-- Serializing the payload document to tokens and parsing the tokens back
yields the payload unchanged. -/
theorem parse_serializePayloadTokens (P : MetricsPayload) :
    parsePayloadTokens (serializePayloadTokens P) = some P := by
  obtain ⟨meta, ⟨rid2, rn2, pk, sc⟩⟩ := P
  simp only [serializePayloadTokens, parsePayloadTokens, parse_serStrObjFields,
    metaOfFields_metaFields, parseMetricData, parseMDResId, parseMDResName,
    parseMDProvider, parse_serMRFields]

/-- Claim C1, counterexample.  The claim quantifies over arbitrary provider
p, resource_id r and resource_name n and asserts the POSTed metric_data is
built from them; but submit takes no such parameters, and the body it
POSTs carries the fixed strings of the source: for r = "res_999" the
claimed equality fails, since the posted resource_id is "res_123456". -/
theorem C1_counterexample :
    ¬ (∀ (p r n : String) (M : MetricResult) (t u : String),
        (post_metrics_request M t u).body.metric_data = ⟨r, n, p, M⟩) := by
  intro h
  have h2 := h "deepeval" "res_999" "chat-completion" [] "t" "u"
  have h3 : "res_123456" = "res_999" := congrArg MetricData.resource_id h2
  exact absurd h3 (by decide)

/-- Claim C1, amended.  For every metric-results mapping M, submit POSTs a
body of exactly the shape of the claim, except that the metadata, the
resource_id "res_123456", the resource_name "chat-completion" and the
provider key are fixed constants of the client rather than parameters; the
third key under metric_data equals the provider value stored in
metric_metadata ("deepeval" in the DeepEval notebook, "opik" in the Opik
notebook). -/
theorem C1_submit_payload_shape (M : MetricResult) (auth_token user_id : String) :
    (post_metrics_request M auth_token user_id).body =
      ⟨⟨"chat-application", "1.0.0", "chat-completion", "R-756",
        "https://api.example.com/chat", "deepeval", "transportation"⟩,
       ⟨"res_123456", "chat-completion", "deepeval", M⟩⟩
    ∧ (post_metrics_request M auth_token user_id).body.metric_data.providerKey =
        (post_metrics_request M auth_token user_id).body.metric_metadata.provider
    ∧ (opik_submit_request M auth_token).body =
      ⟨⟨"chat-application", "1.0.0", "chat-completion", "R-756",
        "https://api.example.com/chat", "opik", "transportation"⟩,
       ⟨"res_123456", "chat-completion", "opik", M⟩⟩
    ∧ (opik_submit_request M auth_token).body.metric_data.providerKey =
        (opik_submit_request M auth_token).body.metric_metadata.provider :=
  ⟨rfl, rfl, rfl, rfl⟩

/-- Claim C2.  For every report_id and every response with a non-200
status, fetch returns None and does not raise: the outcome is a normal
return of an absent value, never the error case. -/
theorem C2_fetch_non200_returns_none {α : Type} (report_id auth_token user_id : String)
    (resp : HttpResponse α) (h : resp.status ≠ 200) :
    (fetch_report_result report_id auth_token user_id resp).2 = Except.ok none := by
  simp [fetch_report_result, h]

/-- Claim C2, witness: a concrete 404 response makes fetch return None. -/
theorem C2_witness :
    (404 : Nat) ≠ 200
    ∧ (fetch_report_result "report_id" "token" "user_id"
        (HttpResponse.mk 404 (none : Option Nat) "not found")).2 = Except.ok none :=
  ⟨by decide, C2_fetch_non200_returns_none "report_id" "token" "user_id" _ (by decide)⟩

/-- Claim C3.  For every report_id and every 200 response whose body
parses to B, fetch returns exactly B, with no field added, removed or
reinterpreted: the result is the parsed body itself, at an abstract body
type the client never inspects. -/
theorem C3_fetch_200_passthrough {α : Type} (report_id auth_token user_id : String)
    (resp : HttpResponse α) (B : α) (h200 : resp.status = 200)
    (hbody : resp.jsonBody = some B) :
    (fetch_report_result report_id auth_token user_id resp).2 = Except.ok (some B) := by
  simp [fetch_report_result, h200, hbody]

/-- Claim C3, witness: a 200 response whose body parses to the document
with health_index 67 and stars 3 is returned unchanged. -/
theorem C3_witness :
    (fetch_report_result "report_id" "token" "user_id"
      (HttpResponse.mk 200 (some [("health_index", (67 : Nat)), ("stars", 3)]) "")).2
      = Except.ok (some [("health_index", 67), ("stars", 3)]) :=
  C3_fetch_200_passthrough "report_id" "token" "user_id" _ _ rfl rfl

/-- Claim C4, counterexample.  The claim says submit returns to the caller
the raw status code, and the raw response text when the body is not valid
JSON.  But for two responses with invalid JSON bodies that differ both in
status (200 vs 500) and in text ("A" vs "B"), the value submit returns is
the same, None: the return value carries neither the status code nor the
text. -/
theorem C4_counterexample :
    (post_metrics_handle (HttpResponse.mk 200 (none : Option Nat) "A")).2 =
      (post_metrics_handle (HttpResponse.mk 500 (none : Option Nat) "B")).2
    ∧ (post_metrics_handle (HttpResponse.mk 200 (none : Option Nat) "A")).2 = none
    ∧ (200 : Nat) ≠ 500 ∧ "A" ≠ "B" :=
  ⟨rfl, rfl, by decide, by decide⟩

/-- Claim C4, amended.  For every response, submit prints the raw status
code; it returns the parsed JSON body when the body is valid JSON and
None otherwise; when the body is not valid JSON it prints (not returns)
the raw response text; and the returned value does not depend on the
status code, on which submit never branches. -/
theorem C4_submit_response_reporting {α : Type} (resp : HttpResponse α) :
    PrintLine.statusLine resp.status ∈ (post_metrics_handle resp).1
    ∧ (post_metrics_handle resp).2 = resp.jsonBody
    ∧ (resp.jsonBody = none → PrintLine.textLine resp.text ∈ (post_metrics_handle resp).1)
    ∧ (∀ s2 : Nat,
        (post_metrics_handle (HttpResponse.mk s2 resp.jsonBody resp.text)).2 =
          (post_metrics_handle resp).2) := by
  obtain ⟨s, jb, tx⟩ := resp
  cases jb <;> simp [post_metrics_handle]

/-- Claim C4, witness: on a concrete 500 response with invalid JSON body,
the raw text is among the printed lines. -/
theorem C4_witness :
    PrintLine.textLine "oops" ∈
      (post_metrics_handle (HttpResponse.mk 500 (none : Option Nat) "oops")).1 :=
  (C4_submit_response_reporting (HttpResponse.mk 500 (none : Option Nat) "oops")).2.2.1 rfl

/-- Claim C5, counterexample.  The claim says the metric_metadata of the
POSTed payload equals a ReportMetadata record supplied by the caller; but
submit takes no metadata argument, and no choice of its actual arguments
can make the POSTed metric_metadata have application_name "x". -/
theorem C5_counterexample :
    ¬ (∀ R : MetricMetadata, ∃ (M : MetricResult) (t u : String),
        (post_metrics_request M t u).body.metric_metadata = R) := by
  intro h
  obtain ⟨M, t, u, hEq⟩ := h ⟨"x", "", "", "", "", "", ""⟩
  have h2 : "chat-application" = "x" := congrArg MetricMetadata.application_name hEq
  exact absurd h2 (by decide)

/-- Claim C5, amended.  The metric_metadata of the POSTed payload does not
come from a caller argument: for every actual argument of submit it equals
the record of seven literals fixed inside the client (with provider
"deepeval" in the DeepEval notebook and "opik" in the Opik notebook). -/
theorem C5_metadata_fixed (M : MetricResult) (auth_token user_id : String) :
    (post_metrics_request M auth_token user_id).body.metric_metadata =
      ⟨"chat-application", "1.0.0", "chat-completion", "R-756",
       "https://api.example.com/chat", "deepeval", "transportation"⟩
    ∧ (opik_submit_request M auth_token).body.metric_metadata =
      ⟨"chat-application", "1.0.0", "chat-completion", "R-756",
       "https://api.example.com/chat", "opik", "transportation"⟩ :=
  ⟨rfl, rfl⟩

/-- Claim C6.  For every auth token t, the Authorization header sent by
the DeepEval submit, by fetch, and by the Opik submit cell is exactly t:
no Bearer prefix, no scheme transformation. -/
theorem C6_authorization_verbatim (M : MetricResult) (t u report_id : String) :
    dlookup "Authorization" (post_metrics_request M t u).headers = some t
    ∧ dlookup "Authorization" (fetch_report_request report_id t u).headers = some t
    ∧ dlookup "Authorization" (opik_submit_request M t).headers = some t :=
  ⟨rfl, rfl, rfl⟩

/-- Claim C7, counterexample.  In the Opik collector a GEval evaluator in
the sequence falls into the else branch and is skipped: it is never
invoked (the invocation log is empty) and nothing is recorded under its
class name, against the claim that no evaluator in the sequence is
skipped. -/
theorem C7_counterexample :
    (opik_metric_results [OpikMetric.geval (fun _ _ => (1 : Rat))] "out" "ref").2 = []
    ∧ dlookup "GEval"
        (opik_metric_results [OpikMetric.geval (fun _ _ => (1 : Rat))] "out" "ref").1 = none :=
  ⟨rfl, rfl⟩

/-- Claim C7, amended.  The DeepEval collector invokes every evaluator in
the sequence exactly once, in order, and records a result under each class
name that occurs; the Opik collector invokes exactly its Equals and
Moderation evaluators, once each, in order, and skips any other
evaluator. -/
theorem C7_collector_invocations {α : Type} (ms : List (DeepEvalMetric α)) (tc : α)
    (msO : List OpikMetric) (output reference : String) :
    (deepeval_metric_results ms tc).2 = ms.map DeepEvalMetric.className
    ∧ (∀ k, k ∈ dkeys (deepeval_metric_results ms tc).1 ↔
        k ∈ ms.map DeepEvalMetric.className)
    ∧ (opik_metric_results msO output reference).2 = msO.filterMap opikScoredName := by
  refine ⟨deepeval_go_log tc ms [], fun k => ?_, opik_go_log output reference msO []⟩
  simpa [deepeval_metric_results, dkeys] using mem_dkeys_deepeval_go tc k ms []

/-- Claim C8.  In both collectors, looking a name up in the dict built by
the loop equals looking it up in the reversed sequence of the entries the
loop writes (every evaluator for DeepEval, the scored Equals and
Moderation evaluators for Opik): when several written entries share a
class name, the value of the last one wins, and every other name keeps
its single value. -/
theorem C8_last_write_wins {α : Type} (ms : List (DeepEvalMetric α)) (tc : α) (k : String)
    (msO : List OpikMetric) (output reference : String) :
    dlookup k (deepeval_metric_results ms tc).1 =
      dlookup k (ms.map (fun m => (m.className, m.measure tc))).reverse
    ∧ dlookup k (opik_metric_results msO output reference).1 =
      dlookup k (msO.filterMap (opikScoredEntry output reference)).reverse := by
  constructor
  · simp only [deepeval_metric_results]
    rw [dlookup_deepeval_go]
    cases hx : dlookup k (ms.map (fun m => (m.className, m.measure tc))).reverse <;>
      simp [dlookup]
  · simp only [opik_metric_results]
    rw [dlookup_opik_go]
    cases hx : dlookup k (msO.filterMap (opikScoredEntry output reference)).reverse <;>
      simp [dlookup]

/-- Claim C9, counterexample.  The claim quantifies over arbitrary
ReportMetadata R and asserts the entry of the parsed document under the
key R.provider equals M; but the provider key of the POSTed payload is
fixed: for R.provider = "opik", the document the DeepEval submit POSTs,
serialized and parsed back, has no entry under "opik" at all. -/
theorem C9_counterexample :
    parsePayloadTokens (serializePayloadTokens (post_metrics_payload [("Equals", (0 : Rat))])) =
      some (post_metrics_payload [("Equals", (0 : Rat))])
    ∧ metric_data_lookup "opik"
        (post_metrics_payload [("Equals", (0 : Rat))]).metric_data = none :=
  ⟨parse_serializePayloadTokens _, rfl⟩

/-- Claim C9, amended.  For every MetricResult M, serializing the payload
built by submit and parsing it back yields the payload document unchanged,
and its metric_data entry under the key equal to its own
metric_metadata.provider equals M exactly; the provider is the constant of
the client ("deepeval" or "opik"), not a caller-supplied R.provider. -/
theorem C9_provider_roundtrip (M : MetricResult) :
    parsePayloadTokens (serializePayloadTokens (post_metrics_payload M)) =
      some (post_metrics_payload M)
    ∧ metric_data_lookup (post_metrics_payload M).metric_metadata.provider
        (post_metrics_payload M).metric_data = some M
    ∧ parsePayloadTokens (serializePayloadTokens (opik_payload M)) =
      some (opik_payload M)
    ∧ metric_data_lookup (opik_payload M).metric_metadata.provider
        (opik_payload M).metric_data = some M :=
  ⟨parse_serializePayloadTokens _, rfl, parse_serializePayloadTokens _, rfl⟩

/-- Claim C10.  The keys of the resulting mapping are exactly the class
names of the evaluators that were scored: every evaluator for the DeepEval
collector, the Equals and Moderation evaluators for the Opik collector;
and the keys are distinct, so two evaluator instances of the same class
collide on one key and only one score survives. -/
theorem C10_result_keys {α : Type} (ms : List (DeepEvalMetric α)) (tc : α)
    (msO : List OpikMetric) (output reference : String) :
    (∀ k, k ∈ dkeys (deepeval_metric_results ms tc).1 ↔
        k ∈ ms.map DeepEvalMetric.className)
    ∧ (dkeys (deepeval_metric_results ms tc).1).Nodup
    ∧ (∀ k, k ∈ dkeys (opik_metric_results msO output reference).1 ↔
        k ∈ msO.filterMap opikScoredName)
    ∧ (dkeys (opik_metric_results msO output reference).1).Nodup := by
  refine ⟨fun k => ?_, ?_, fun k => ?_, ?_⟩
  · simpa [deepeval_metric_results, dkeys] using mem_dkeys_deepeval_go tc k ms []
  · simpa [deepeval_metric_results] using
      nodup_dkeys_deepeval_go tc ms [] (by simp [dkeys])
  · simpa [opik_metric_results, dkeys] using
      mem_dkeys_opik_go output reference k msO []
  · simpa [opik_metric_results] using
      nodup_dkeys_opik_go output reference msO [] (by simp [dkeys])
